import Mathlib

/-!
Shallow embedding of `src/imu_manager.cpp`

The component is a single C++ class `ImuManager` whose methods mutate member
fields and call external ROS services.  Here the member fields are one record
(`ImuManager`), every method is a function from the record (and the
environment of the call) to the new record (and the returned value), and every
call that leaves the class (service calls, `*Impl` hooks, `switchToState`,
topic subscription) is appended to the `trace` field, so that "X is never
invoked" is the statement that no such event was appended.

Conventions
* `double` members are rationals: the claims only compare them and take
  absolute values, which are exact on finite doubles.
* `ros::Time` and `ros::Duration` are unbounded integers (nanoseconds).
* containers are lists: `push_back` appends, `front` is the head, `back` the
  last element, `clear` gives the empty list.
-/

namespace imu_manager

/-- The seven labels registered with `calibration_state_.addState` (lines 15-21). -/
inductive CalibrationState where
  | CALIBRATED
  | MUST_CHECK
  | CHECKING
  | MUST_CALIBRATE
  | CALIBRATING
  | NOT_CALIBRATED
  | UNKNOWN
  deriving DecidableEq, Repr

/-- The values of `robotnik_msgs::State` that the component switches between. -/
inductive LifecycleState where
  | INIT_STATE
  | STANDBY_STATE
  | READY_STATE
  | EMERGENCY_STATE
  | FAILURE_STATE
  deriving DecidableEq, Repr

/-- The member `calibration_state_`: a current and a desired label. -/
structure StateMachine where
  current : CalibrationState
  desired : CalibrationState
  deriving DecidableEq, Repr

/-- The fields of `sensor_msgs::Imu` that the component reads. -/
structure ImuMsg where
  stamp : Int
  angular_velocity_z : ℚ
  deriving DecidableEq, Repr

/-- A `ros::Subscriber`, identified by the topic it was created for. -/
structure Subscriber where
  topic : String
  deriving DecidableEq, Repr

/-- A `TopicHealthMonitor` built on a subscriber; `ticks` counts the calls of `tick()`. -/
structure TopicHealthMonitor where
  topic : String
  ticks : Nat
  deriving DecidableEq, Repr

/-- Calls that leave the class, in the order they are made. -/
inductive Event where
  | robot_toggle_call (value : Bool)
  | calibrate_gyros_call
  | startHardwareImpl
  | stopHardwareImpl
  | startSoftwareImpl
  | stopSoftwareImpl
  | waitForMessage (topic : String)
  | subscribe (topic : String)
  | switchToState (target : LifecycleState)
  deriving DecidableEq, Repr

/-- What the outside world answers during one call of a method. -/
structure Env where
  /-- value of `ros::Time::now()` -/
  now : Int
  /-- result of `robot_toggle_.call(rt)` -/
  robot_toggle_result : Bool
  /-- `rt.response.ret` -/
  robot_toggle_ret : Bool
  /-- result of `calibrate_gyros_.call(calibrate)` -/
  calibrate_result : Bool
  /-- `calibrate.response.success` -/
  calibrate_success : Bool
  /-- `waitForMessage` on the data topic returned a message -/
  data_received : Bool
  /-- `waitForMessage` on the temperature topic returned a message -/
  temperature_received : Bool
  /-- `isReceiving()` of the i-th element of `data_health_monitors_` -/
  isReceiving : Nat → Bool

/-- The member fields of the class `ImuManager`. -/
structure ImuManager where
  max_allowed_mean_error_ : ℚ
  max_allowed_std_deviation_ : ℚ
  data_topic_ : String
  temperature_topic_ : String
  calibration_only_under_demand_ : Bool
  temperature_variation_for_calibration_ : ℚ
  period_between_checkings_ : Int
  period_of_data_gathering_ : Int
  duration_of_calibration_ : Int
  hw_running_ : Bool
  sw_running_ : Bool
  state : LifecycleState
  calibration_state_ : StateMachine
  calibration_demanded_ : Bool
  current_temperature_ : ℚ
  temperature_at_last_calibration_ : ℚ
  time_of_last_calibration_ : Int
  start_of_calibration_ : Int
  data_buffer_ : List ImuMsg
  z_angular_velocity_buffer_ : List ℚ
  data_mean_ : ℚ
  data_std_dev_ : ℚ
  data_subscribers_ : List Subscriber
  data_health_monitors_ : List TopicHealthMonitor
  trace : List Event

/-! ## Collaborators that are not part of `imu_manager.cpp` -/

/-- Modelled from the spec: `StateMachine::getCurrentState` of the absent state-machine
class, the `current` value of the desired/current pair. -/
def getCurrentState (s : ImuManager) : CalibrationState :=
  s.calibration_state_.current

/-- Modelled from the spec: `StateMachine::setDesiredState` of the absent state-machine
class; the write is staged in `desired` and `current` is not touched.  All seven
labels are registered in the constructor, so every label is accepted. -/
def setDesiredState (s : ImuManager) (d : CalibrationState) : ImuManager :=
  { s with calibration_state_ := { s.calibration_state_ with desired := d } }

/-- Modelled from the spec: `StateMachine::switchToDesiredState` of the absent
state-machine class, the single commit step `current ← desired`. -/
def switchToDesiredState (s : ImuManager) : ImuManager :=
  { s with calibration_state_ := { s.calibration_state_ with current := s.calibration_state_.desired } }

/-- Modelled from the spec: `RComponent::switchToState` of the absent lifecycle host;
the requested lifecycle state becomes the component state and the request is logged. -/
def switchToState (s : ImuManager) (target : LifecycleState) : ImuManager :=
  { s with state := target, trace := s.trace ++ [Event.switchToState target] }

/-- Modelled from the spec: `calculateMean` of the absent `data_utils.h`, the arithmetic
mean of the retained samples and `0` for the empty buffer. -/
def calculateMean (xs : List ℚ) : ℚ :=
  if xs.length = 0 then 0 else xs.sum / (xs.length : ℚ)

/-! ## Methods of `ImuManager` -/

/-- Lines 328-335. -/
def canRunCalibration (s : ImuManager) : Bool :=
  if s.calibration_only_under_demand_ = true ∧ s.calibration_demanded_ = false then false
  else true

/-- Lines 337-344. -/
def canCheckCalibration (s : ImuManager) : Bool :=
  if s.calibration_only_under_demand_ = true ∧ s.calibration_demanded_ = false then false
  else true

/-- Lines 346-367. -/
def toggleRobotOperation (e : Env) (s : ImuManager) (toggle : Bool) : Bool × ImuManager :=
  let s1 := { s with trace := s.trace ++ [Event.robot_toggle_call toggle] }
  if e.robot_toggle_result = false then (false, s1)
  else if e.robot_toggle_ret = false then (false, s1)
  else (true, s1)

/-- Lines 369-378.  `front()` and `back()` are the head and the last element; the last
branch of the match is not reached, the buffer being non-empty there. -/
def hasEnoughDataToCalibrate (s : ImuManager) : Bool :=
  if s.data_buffer_.length = 0 then false
  else
    match s.data_buffer_.head?, s.data_buffer_.getLast? with
    | some front, some back =>
      if back.stamp - front.stamp < s.period_of_data_gathering_ then false else true
    | _, _ => false

/-- Lines 536-542. -/
def checkHardwareConnectionImpl (s : ImuManager) : Bool :=
  if s.hw_running_ = false then false else true

/-- Lines 544-566. -/
def checkSoftwareConnectionImpl (e : Env) (s : ImuManager) : Bool :=
  if s.sw_running_ = false then false
  else if s.data_health_monitors_.length = 0 then true
  else
    let fail := (List.range s.data_health_monitors_.length).foldl
      (fun fail i => if e.isReceiving i = false then true else fail) false
    !fail

/-- Lines 380-383. -/
def checkHardwareConnection (s : ImuManager) : Bool :=
  checkHardwareConnectionImpl s

/-- Lines 384-388. -/
def checkSoftwareConnection (e : Env) (s : ImuManager) : Bool :=
  checkSoftwareConnectionImpl e s

/-- Lines 568-571. -/
def startHardwareImpl (s : ImuManager) : Bool × ImuManager :=
  (true, { s with trace := s.trace ++ [Event.startHardwareImpl] })

/-- Lines 572-575. -/
def stopHardwareImpl (s : ImuManager) : Bool × ImuManager :=
  (true, { s with trace := s.trace ++ [Event.stopHardwareImpl] })

/-- Lines 391-412. -/
def startHardware (s : ImuManager) : Bool × ImuManager :=
  if s.hw_running_ = true then (true, s)
  else
    let r := startHardwareImpl s
    if r.1 = true then (r.1, { r.2 with hw_running_ := true })
    else (r.1, r.2)

/-- Lines 413-440. -/
def stopHardware (s : ImuManager) : Bool × ImuManager :=
  if s.sw_running_ = false then (false, s)
  else if s.hw_running_ = false then (true, s)
  else
    let r := stopHardwareImpl s
    if r.1 = true then (r.1, { r.2 with hw_running_ := false })
    else (r.1, r.2)

/-- Lines 577-613. -/
def startSoftwareImpl (e : Env) (s : ImuManager) : Bool × ImuManager :=
  let s0 := { s with trace := s.trace ++ [Event.startSoftwareImpl, Event.waitForMessage s.data_topic_] }
  if e.data_received = false then (false, s0)
  else
    let s1 := { s0 with
      data_subscribers_ := s0.data_subscribers_ ++ [Subscriber.mk s0.data_topic_],
      data_health_monitors_ := s0.data_health_monitors_ ++ [TopicHealthMonitor.mk s0.data_topic_ 0],
      trace := s0.trace ++ [Event.subscribe s0.data_topic_, Event.waitForMessage s0.temperature_topic_] }
    if e.temperature_received = false then (false, s1)
    else
      (true, { s1 with
        data_subscribers_ := s1.data_subscribers_ ++ [Subscriber.mk s1.temperature_topic_],
        data_health_monitors_ :=
          s1.data_health_monitors_ ++ [TopicHealthMonitor.mk s1.temperature_topic_ 0],
        trace := s1.trace ++ [Event.subscribe s1.temperature_topic_] })

/-- Lines 615-621. -/
def stopSoftwareImpl (s : ImuManager) : Bool × ImuManager :=
  (true, { s with
    data_health_monitors_ := [],
    data_subscribers_ := [],
    trace := s.trace ++ [Event.stopSoftwareImpl] })

/-- Lines 443-470. -/
def startSoftware (e : Env) (s : ImuManager) : Bool × ImuManager :=
  if s.hw_running_ = false then (false, s)
  else if s.sw_running_ = true then (true, s)
  else
    let r := startSoftwareImpl e s
    if r.1 = true then (r.1, { r.2 with sw_running_ := true })
    else (r.1, r.2)

/-- Lines 472-493. -/
def stopSoftware (s : ImuManager) : Bool × ImuManager :=
  if s.sw_running_ = false then (true, s)
  else
    let r := stopSoftwareImpl s
    if r.1 = true then (r.1, { r.2 with sw_running_ := false })
    else (r.1, r.2)

/-- Lines 673-704. -/
def isCalibratedImpl (s : ImuManager) : Bool :=
  let calibrated := true
  let calibrated := if abs s.data_mean_ > s.max_allowed_mean_error_ then false else calibrated
  let calibrated := if abs s.data_std_dev_ > s.max_allowed_std_deviation_ then false else calibrated
  calibrated

/-- Lines 495-515. -/
def mustRunCalibration (s : ImuManager) : Bool :=
  if s.sw_running_ = false then false
  else
    let is_calibrated := isCalibratedImpl s
    if is_calibrated = true then false else true

/-- Lines 706-725. -/
def runCalibrationImpl (e : Env) (s : ImuManager) : Bool × ImuManager :=
  let s1 := { s with trace := s.trace ++ [Event.calibrate_gyros_call] }
  if e.calibrate_result = false then (false, s1)
  else if e.calibrate_success = false then (false, s1)
  else (true, s1)

/-- Lines 517-525. -/
def runCalibration (e : Env) (s : ImuManager) : Bool × ImuManager :=
  let r := runCalibrationImpl e s
  if r.1 = false then (false, r.2)
  else (true, { r.2 with start_of_calibration_ := e.now })

/-- Lines 527-532. -/
def isRunningCalibration (e : Env) (s : ImuManager) : Bool :=
  decide (e.now - s.start_of_calibration_ < s.duration_of_calibration_)

/-- Lines 126-286.  The label returned by `getCurrentState` does not change inside the
call (only the desired label is written), so the chain of `if` blocks of the source is
entered in at most one place after the first block. -/
def readyState (e : Env) (s : ImuManager) : ImuManager :=
  if checkHardwareConnection s = false then switchToState s LifecycleState.FAILURE_STATE
  else if checkSoftwareConnection e s = false then switchToState s LifecycleState.EMERGENCY_STATE
  else
    let s :=
      if getCurrentState s = CalibrationState.UNKNOWN ∨
          getCurrentState s = CalibrationState.NOT_CALIBRATED then
        setDesiredState s CalibrationState.MUST_CHECK
      else s
    if getCurrentState s = CalibrationState.CALIBRATED then
      let s := { s with temperature_variation_for_calibration_ := 1 }
      if s.calibration_only_under_demand_ = false ∧
          abs (s.current_temperature_ - s.temperature_at_last_calibration_) >
            s.temperature_variation_for_calibration_ then
        setDesiredState s CalibrationState.MUST_CHECK
      else if s.calibration_only_under_demand_ = false ∧
          e.now - s.time_of_last_calibration_ > s.period_between_checkings_ then
        setDesiredState s CalibrationState.MUST_CHECK
      else if true = s.calibration_demanded_ then
        setDesiredState { s with calibration_demanded_ := false } CalibrationState.MUST_CHECK
      else s
    else if getCurrentState s = CalibrationState.MUST_CHECK then
      let can_check := canCheckCalibration s
      if true = can_check then
        let s := { s with data_buffer_ := [], z_angular_velocity_buffer_ := [] }
        let r := toggleRobotOperation e s false
        setDesiredState r.2 CalibrationState.CHECKING
      else s
    else if getCurrentState s = CalibrationState.CHECKING then
      if hasEnoughDataToCalibrate s = false then s
      else
        let must_calibrate := mustRunCalibration s
        if true = must_calibrate then
          setDesiredState s CalibrationState.MUST_CALIBRATE
        else
          let s := { s with
            time_of_last_calibration_ := e.now,
            temperature_at_last_calibration_ := s.current_temperature_ }
          let r := toggleRobotOperation e s true
          setDesiredState r.2 CalibrationState.CALIBRATED
    else if getCurrentState s = CalibrationState.MUST_CALIBRATE then
      let can_run_calibration := canRunCalibration s
      if false = can_run_calibration then s
      else
        let r := toggleRobotOperation e s false
        let robot_disabled := r.1
        let s := r.2
        if false = robot_disabled then
          setDesiredState s CalibrationState.NOT_CALIBRATED
        else
          let c := runCalibration e s
          let started_calibration := c.1
          let s := c.2
          if true = started_calibration then
            setDesiredState s CalibrationState.CALIBRATING
          else
            switchToState (setDesiredState s CalibrationState.NOT_CALIBRATED)
              LifecycleState.FAILURE_STATE
    else if getCurrentState s = CalibrationState.CALIBRATING then
      let running_calibration := isRunningCalibration e s
      if true = running_calibration then s
      else setDesiredState s CalibrationState.MUST_CHECK
    else s

/-- Lines 103-113. -/
def initState (s : ImuManager) : ImuManager :=
  let r := startHardware s
  if r.1 = false then switchToState r.2 LifecycleState.FAILURE_STATE
  else switchToState r.2 LifecycleState.STANDBY_STATE

/-- Lines 115-124. -/
def standbyState (e : Env) (s : ImuManager) : ImuManager :=
  let r := startSoftware e s
  if r.1 = false then r.2
  else switchToState r.2 LifecycleState.READY_STATE

/-- Lines 288-302. -/
def emergencyState (s : ImuManager) : ImuManager :=
  let s := (stopSoftware s).2
  if checkHardwareConnection s = false then switchToState s LifecycleState.FAILURE_STATE
  else switchToState s LifecycleState.INIT_STATE

/-- Lines 304-320. -/
def failureState (s : ImuManager) : ImuManager :=
  let s := if s.hw_running_ = true then (stopHardware s).2 else s
  let s := if s.hw_running_ = false then (startHardware s).2 else s
  if checkHardwareConnection s = true then switchToState s LifecycleState.INIT_STATE
  else s

/-- Lines 322-326; `RComponent::allState` of the absent lifecycle host touches none of
the fields of this class. -/
def allState (s : ImuManager) : ImuManager :=
  switchToDesiredState s

/-- The fields of `std_srvs::Trigger::Response`. -/
structure TriggerResponse where
  success : Bool
  message : String
  deriving DecidableEq, Repr

/-- Lines 623-640. -/
def triggerCalibrationCallback (s : ImuManager) : Bool × TriggerResponse × ImuManager :=
  if getCurrentState s = CalibrationState.UNKNOWN ∨
      getCurrentState s = CalibrationState.NOT_CALIBRATED ∨
      getCurrentState s = CalibrationState.CALIBRATED then
    (true, TriggerResponse.mk true "Calibration triggered", { s with calibration_demanded_ := true })
  else
    (true, TriggerResponse.mk true "Calibration was running, so this call had no effect", s)

/-- The call `data_health_monitors_[i].tick()`. -/
def tickMonitor (ms : List TopicHealthMonitor) (i : Nat) : List TopicHealthMonitor :=
  ms.modify (fun m => { m with ticks := m.ticks + 1 }) i

/-- Lines 642-652.  `calculateStdDev` belongs to the absent `data_utils.h`; a standard
deviation needs a square root, which the rationals lack, so it is an argument. -/
def dataCallback (calculateStdDev : List ℚ → ℚ) (s : ImuManager) (input : ImuMsg) : ImuManager :=
  let s :=
    if s.data_health_monitors_.length > 0 then
      { s with data_health_monitors_ := tickMonitor s.data_health_monitors_ 0 }
    else s
  let s := { s with
    data_buffer_ := s.data_buffer_ ++ [input],
    z_angular_velocity_buffer_ := s.z_angular_velocity_buffer_ ++ [input.angular_velocity_z] }
  { s with
    data_mean_ := calculateMean s.z_angular_velocity_buffer_,
    data_std_dev_ := calculateStdDev s.z_angular_velocity_buffer_ }

/-- Lines 654-661. -/
def temperatureCallback (s : ImuManager) (temperature : ℚ) : ImuManager :=
  let s :=
    if s.data_health_monitors_.length > 1 then
      { s with data_health_monitors_ := tickMonitor s.data_health_monitors_ 1 }
    else s
  { s with current_temperature_ := temperature }

/-- Lines 663-666. -/
def getMean (s : ImuManager) : ℚ :=
  s.data_mean_

/-- Lines 668-671. -/
def getStdDev (s : ImuManager) : ℚ :=
  s.data_std_dev_

/-! ## Runs of the component -/

/-- Modelled from the spec: one supervisory tick of the absent lifecycle host while the
lifecycle is `READY`, the state hook `readyState` followed by `allState`, in which the
staged label is committed. -/
def readyTick (e : Env) (s : ImuManager) : ImuManager :=
  allState (readyState e s)

/-- What can happen to the component in `READY`: a supervisory tick, or a call of the
`trigger_calibration` service by the operator. -/
inductive Action where
  | tick (e : Env)
  | demand

/-- The effect of one action. -/
def applyAction (s : ImuManager) : Action → ImuManager
  | Action.tick e => readyTick e s
  | Action.demand => (triggerCalibrationCallback s).2.2

/-- The effect of a sequence of actions, first to last. -/
def run (s : ImuManager) (actions : List Action) : ImuManager :=
  actions.foldl applyAction s

/-- The configuration of the demand-only component that waits in `MUST_CHECK` with no
demand pending. -/
def deadEnd (s : ImuManager) : Prop :=
  s.calibration_only_under_demand_ = true ∧
  s.calibration_state_.current = CalibrationState.MUST_CHECK ∧
  s.calibration_state_.desired = CalibrationState.MUST_CHECK ∧
  s.calibration_demanded_ = false

instance (s : ImuManager) : Decidable (deadEnd s) := by
  unfold deadEnd
  exact inferInstance

/-! ## Concrete states used to evaluate the code -/

/-- The object after the constructor (lines 7-24) with the defaults of `rosReadParams`
(lines 30-72): both subsystems stopped, desired label `UNKNOWN`, empty containers.
Durations are in nanoseconds.  The members the constructor does not assign (demand flag,
temperatures, stamps, cached statistics) are `false` and `0` here, and the current label
is taken to be `UNKNOWN` as well. -/
def constructed : ImuManager where
  max_allowed_mean_error_ := 0
  max_allowed_std_deviation_ := 0
  data_topic_ := "imu/data"
  temperature_topic_ := "imu/temperature"
  calibration_only_under_demand_ := false
  temperature_variation_for_calibration_ := 1
  period_between_checkings_ := 10000000000
  period_of_data_gathering_ := 5000000000
  duration_of_calibration_ := 40000000000
  hw_running_ := false
  sw_running_ := false
  state := LifecycleState.INIT_STATE
  calibration_state_ := StateMachine.mk CalibrationState.UNKNOWN CalibrationState.UNKNOWN
  calibration_demanded_ := false
  current_temperature_ := 0
  temperature_at_last_calibration_ := 0
  time_of_last_calibration_ := 0
  start_of_calibration_ := 0
  data_buffer_ := []
  z_angular_velocity_buffer_ := []
  data_mean_ := 0
  data_std_dev_ := 0
  data_subscribers_ := []
  data_health_monitors_ := []
  trace := []

/-- An environment in which every service answers and every channel delivers. -/
def fineEnv (now : Int) : Env where
  now := now
  robot_toggle_result := true
  robot_toggle_ret := true
  calibrate_result := true
  calibrate_success := true
  data_received := true
  temperature_received := true
  isReceiving := fun _ => true

/-- The component in `READY` with both subsystems running and no health monitor. -/
def running : ImuManager :=
  { constructed with hw_running_ := true, sw_running_ := true, state := LifecycleState.READY_STATE }

/-- Hardware running, software stopped, nothing subscribed. -/
def hardwareOnly : ImuManager :=
  { constructed with hw_running_ := true, state := LifecycleState.STANDBY_STATE }

/-- The data channel delivers within the wait, the temperature channel does not. -/
def noTemperatureEnv : Env :=
  { fineEnv 0 with temperature_received := false }

/-- The component in `READY` with the calibration state machine at a given label. -/
def runningAt (c : CalibrationState) : ImuManager :=
  { running with calibration_state_ := StateMachine.mk c c }

/-- A component in `CHECKING` with two samples five seconds apart in the buffer, the
given cached statistics, and both thresholds at `0.01`. -/
def checkingWith (mean stdDev : ℚ) : ImuManager :=
  { runningAt CalibrationState.CHECKING with
    max_allowed_mean_error_ := 1 / 100,
    max_allowed_std_deviation_ := 1 / 100,
    current_temperature_ := 25,
    data_buffer_ := [ImuMsg.mk 0 mean, ImuMsg.mk 5000000000 mean],
    z_angular_velocity_buffer_ := [mean, mean],
    data_mean_ := mean,
    data_std_dev_ := stdDev }

/-- The motion-control service cannot be contacted. -/
def noToggleEnv (now : Int) : Env :=
  { fineEnv now with robot_toggle_result := false }

/-- The calibration service cannot be contacted. -/
def noCalibrateEnv (now : Int) : Env :=
  { fineEnv now with calibrate_result := false }

/-- The component in `EMERGENCY` with software running and hardware not running. -/
def emergencyWithoutHardware : ImuManager :=
  { constructed with sw_running_ := true, state := LifecycleState.EMERGENCY_STATE }

/-- The component in `READY` and `CALIBRATED`, with a given configured
`temperature_variation_for_calibration_`, current temperature and temperature at the last
calibration. -/
def calibratedWith (trigger current last : ℚ) : ImuManager :=
  { runningAt CalibrationState.CALIBRATED with
    temperature_variation_for_calibration_ := trigger,
    current_temperature_ := current,
    temperature_at_last_calibration_ := last }

/-- A `CALIBRATED` component with an operator demand pending and the temperature two
degrees away from the temperature at the last calibration. -/
def demandedAndWarm : ImuManager :=
  { calibratedWith 1 2 0 with calibration_demanded_ := true }

/-! # Theorems -/

/-! ## C1: demand-only mode, no demand pending -/

/-- C1, counterexample: in demand-only mode with no demand pending, a READY tick
started in `UNKNOWN` (hardware and software reachable) stages `MUST_CHECK`. -/
theorem C1_unknown_stages_must_check :
    ({ running with calibration_only_under_demand_ := true } : ImuManager).calibration_only_under_demand_ = true ∧
    ({ running with calibration_only_under_demand_ := true } : ImuManager).calibration_demanded_ = false ∧
    checkHardwareConnection { running with calibration_only_under_demand_ := true } = true ∧
    checkSoftwareConnection (fineEnv 0) { running with calibration_only_under_demand_ := true } = true ∧
    getCurrentState { running with calibration_only_under_demand_ := true } = CalibrationState.UNKNOWN ∧
    (readyState (fineEnv 0) { running with calibration_only_under_demand_ := true }).calibration_state_.desired
      = CalibrationState.MUST_CHECK := by
  decide

/-- C1, amended: in demand-only mode with no demand pending, a READY tick (hardware and
software reachable) started in `CALIBRATED` leaves the calibration state machine as it
was, and a READY tick started in `UNKNOWN` or `NOT_CALIBRATED` stages `MUST_CHECK`. -/
theorem C1_demand_only_ready_tick (e : Env) (s : ImuManager)
    (hmode : s.calibration_only_under_demand_ = true)
    (hdemand : s.calibration_demanded_ = false)
    (hhw : checkHardwareConnection s = true)
    (hsw : checkSoftwareConnection e s = true) :
    (getCurrentState s = CalibrationState.CALIBRATED →
      (readyState e s).calibration_state_ = s.calibration_state_) ∧
    (getCurrentState s = CalibrationState.UNKNOWN ∨
        getCurrentState s = CalibrationState.NOT_CALIBRATED →
      (readyState e s).calibration_state_.desired = CalibrationState.MUST_CHECK) := by
  simp only [getCurrentState]
  refine ⟨fun hc => ?_, fun hc => ?_⟩
  · simp [readyState, hhw, hsw, hc, hmode, hdemand, getCurrentState, setDesiredState]
  · rcases hc with hc | hc <;>
      simp [readyState, hhw, hsw, hc, getCurrentState, setDesiredState]

/-- C1, witness: the amended statement at a demand-only component that is `CALIBRATED`. -/
theorem C1_demand_only_ready_tick_witness :
    (readyState (fineEnv 0)
        { running with
          calibration_only_under_demand_ := true,
          calibration_state_ :=
            StateMachine.mk CalibrationState.CALIBRATED CalibrationState.CALIBRATED }).calibration_state_
      = StateMachine.mk CalibrationState.CALIBRATED CalibrationState.CALIBRATED :=
  (C1_demand_only_ready_tick (fineEnv 0)
    { running with
      calibration_only_under_demand_ := true,
      calibration_state_ :=
        StateMachine.mk CalibrationState.CALIBRATED CalibrationState.CALIBRATED }
    rfl rfl (by decide) (by decide)).1 rfl

/-! ## C2, C3: stopping hardware and software -/

/-- C2, evaluation of the code: with software and hardware both running, `stopHardware`
does not refuse; it returns `true`, calls `stopHardwareImpl` and clears `hw_running_`
while `sw_running_` is still `true`. -/
theorem C2_stopHardware_with_software_running :
    running.sw_running_ = true ∧
    running.hw_running_ = true ∧
    (stopHardware running).1 = true ∧
    (stopHardware running).2.hw_running_ = false ∧
    (stopHardware running).2.sw_running_ = true ∧
    (stopHardware running).2.trace = running.trace ++ [Event.stopHardwareImpl] := by
  decide

/-- C3, evaluation of the code: with hardware and software both stopped, `stopHardware`
returns `false` (and changes nothing). -/
theorem C3_stopHardware_when_all_stopped :
    constructed.hw_running_ = false ∧
    constructed.sw_running_ = false ∧
    (stopHardware constructed).1 = false ∧
    (stopHardware constructed).2 = constructed :=
  ⟨rfl, rfl, rfl, rfl⟩

/-- The guard at line 415: `stopHardware` returns `false` and does nothing exactly when
software is not running, whatever `hw_running_` is. -/
theorem stopHardware_of_software_stopped (s : ImuManager) (h : s.sw_running_ = false) :
    stopHardware s = (false, s) := by
  simp [stopHardware, h]

/-- With software running, `stopHardware` always returns `true` and leaves hardware
stopped. -/
theorem stopHardware_of_software_running (s : ImuManager) (h : s.sw_running_ = true) :
    (stopHardware s).1 = true ∧ (stopHardware s).2.hw_running_ = false ∧
      (stopHardware s).2.sw_running_ = true := by
  cases hh : s.hw_running_ <;> simp [stopHardware, stopHardwareImpl, h, hh]

/-- Stopping software that is not running returns `true` and changes nothing
(lines 474-478). -/
theorem stopSoftware_of_software_stopped (s : ImuManager) (h : s.sw_running_ = false) :
    stopSoftware s = (true, s) := by
  simp [stopSoftware, h]

/-! ## C4, C5: starting software -/

/-- C4, evaluation of the code: when the data channel gives proof of life and the
temperature channel does not, `startSoftware` returns `false` with `sw_running_` still
`false`, but the data subscription and its health monitor are retained. -/
theorem C4_startSoftware_keeps_data_subscription :
    hardwareOnly.hw_running_ = true ∧
    hardwareOnly.sw_running_ = false ∧
    hardwareOnly.data_subscribers_ = [] ∧
    hardwareOnly.data_health_monitors_ = [] ∧
    (startSoftware noTemperatureEnv hardwareOnly).1 = false ∧
    (startSoftware noTemperatureEnv hardwareOnly).2.sw_running_ = false ∧
    (startSoftware noTemperatureEnv hardwareOnly).2.data_subscribers_
      = [Subscriber.mk "imu/data"] ∧
    (startSoftware noTemperatureEnv hardwareOnly).2.data_health_monitors_
      = [TopicHealthMonitor.mk "imu/data" 0] := by
  decide

/-- The retry of the next `STANDBY` tick after the partial failure of C4: the start
succeeds, the data channel is subscribed twice and the temperature monitor sits at
index 2, while `temperatureCallback` ticks index 1. -/
theorem startSoftware_retry_after_partial_failure :
    (startSoftware (fineEnv 1) (startSoftware noTemperatureEnv hardwareOnly).2).1 = true ∧
    (startSoftware (fineEnv 1)
        (startSoftware noTemperatureEnv hardwareOnly).2).2.data_health_monitors_
      = [TopicHealthMonitor.mk "imu/data" 0, TopicHealthMonitor.mk "imu/data" 0,
         TopicHealthMonitor.mk "imu/temperature" 0] ∧
    (temperatureCallback
        (startSoftware (fineEnv 1) (startSoftware noTemperatureEnv hardwareOnly).2).2
        20).data_health_monitors_
      = [TopicHealthMonitor.mk "imu/data" 0, TopicHealthMonitor.mk "imu/data" 1,
         TopicHealthMonitor.mk "imu/temperature" 0] := by
  decide

/-- When the data channel gives no proof of life, `startSoftware` fails and retains
nothing (lines 585-589). -/
theorem startSoftware_without_data (e : Env) (s : ImuManager)
    (hhw : s.hw_running_ = true) (hsw : s.sw_running_ = false)
    (hdata : e.data_received = false) :
    (startSoftware e s).1 = false ∧
    (startSoftware e s).2.sw_running_ = false ∧
    (startSoftware e s).2.data_subscribers_ = s.data_subscribers_ ∧
    (startSoftware e s).2.data_health_monitors_ = s.data_health_monitors_ := by
  simp [startSoftware, startSoftwareImpl, hhw, hsw, hdata]

/-- C5: with hardware not running, `startSoftware` returns `false` and leaves every
field as it was; in particular `startSoftwareImpl` is not called (the trace is the
same), and `sw_running_`, `data_subscribers_` and `data_health_monitors_` are
unchanged. -/
theorem C5_startSoftware_requires_hardware (e : Env) (s : ImuManager)
    (hhw : s.hw_running_ = false) :
    (startSoftware e s).1 = false ∧
    (startSoftware e s).2 = s ∧
    (startSoftware e s).2.trace = s.trace ∧
    (startSoftware e s).2.sw_running_ = s.sw_running_ ∧
    (startSoftware e s).2.data_subscribers_ = s.data_subscribers_ ∧
    (startSoftware e s).2.data_health_monitors_ = s.data_health_monitors_ := by
  simp [startSoftware, hhw]

/-- C5, witness: the freshly constructed component, whose hardware is not started. -/
theorem C5_startSoftware_requires_hardware_witness :
    constructed.hw_running_ = false ∧
    (startSoftware (fineEnv 0) constructed).1 = false ∧
    (startSoftware (fineEnv 0) constructed).2 = constructed :=
  ⟨rfl, (C5_startSoftware_requires_hardware (fineEnv 0) constructed rfl).1,
    (C5_startSoftware_requires_hardware (fineEnv 0) constructed rfl).2.1⟩

/-! ## C6, C7: the statistics buffer -/

/-- Software reachable implies `sw_running_` (line 546). -/
theorem sw_running_of_checkSoftwareConnection (e : Env) (s : ImuManager)
    (h : checkSoftwareConnection e s = true) : s.sw_running_ = true := by
  cases hs : s.sw_running_ with
  | true => rfl
  | false => simp [checkSoftwareConnection, checkSoftwareConnectionImpl, hs] at h

/-- Whatever the service answers, `toggleRobotOperation` only logs the call. -/
theorem toggleRobotOperation_snd (e : Env) (s : ImuManager) (toggle : Bool) :
    (toggleRobotOperation e s toggle).2
      = { s with trace := s.trace ++ [Event.robot_toggle_call toggle] } := by
  unfold toggleRobotOperation
  split
  · rfl
  · split <;> rfl

/-- The statistics cached by `dataCallback` are those of the buffer with the new sample
appended (lines 647-651). -/
theorem dataCallback_statistics (calculateStdDev : List ℚ → ℚ) (s : ImuManager) (input : ImuMsg) :
    (dataCallback calculateStdDev s input).data_mean_
      = calculateMean (s.z_angular_velocity_buffer_ ++ [input.angular_velocity_z]) ∧
    (dataCallback calculateStdDev s input).data_std_dev_
      = calculateStdDev (s.z_angular_velocity_buffer_ ++ [input.angular_velocity_z]) := by
  unfold dataCallback
  split <;> exact ⟨rfl, rfl⟩

/-- The `MUST_CHECK` branch of a READY tick with the gate open (lines 180-195). -/
theorem readyState_must_check_open (e : Env) (s : ImuManager)
    (hhw : checkHardwareConnection s = true)
    (hsw : checkSoftwareConnection e s = true)
    (hcur : getCurrentState s = CalibrationState.MUST_CHECK)
    (hgate : canCheckCalibration s = true) :
    readyState e s =
      setDesiredState
        (toggleRobotOperation e
          { s with data_buffer_ := [], z_angular_velocity_buffer_ := [] } false).2
        CalibrationState.CHECKING := by
  simp only [getCurrentState] at hcur
  simp [readyState, hhw, hsw, hcur, getCurrentState, hgate]

/-- C6, counterexample: one sample of value `1` is ingested in `MUST_CHECK`; the READY
tick that clears both buffers and stages `CHECKING` leaves `getMean()` at `1`. -/
theorem C6_mean_survives_clear :
    (readyState (fineEnv 0)
        (dataCallback (fun _ => 0) (runningAt CalibrationState.MUST_CHECK)
          (ImuMsg.mk 0 1))).z_angular_velocity_buffer_ = [] ∧
    (readyState (fineEnv 0)
        (dataCallback (fun _ => 0) (runningAt CalibrationState.MUST_CHECK)
          (ImuMsg.mk 0 1))).data_buffer_ = [] ∧
    (readyState (fineEnv 0)
        (dataCallback (fun _ => 0) (runningAt CalibrationState.MUST_CHECK)
          (ImuMsg.mk 0 1))).calibration_state_.desired = CalibrationState.CHECKING ∧
    getMean (readyState (fineEnv 0)
        (dataCallback (fun _ => 0) (runningAt CalibrationState.MUST_CHECK)
          (ImuMsg.mk 0 1))) = 1 ∧
    getMean (readyState (fineEnv 0)
        (dataCallback (fun _ => 0) (runningAt CalibrationState.MUST_CHECK)
          (ImuMsg.mk 0 1))) ≠ 0 := by
  have h := readyState_must_check_open (fineEnv 0)
    (dataCallback (fun _ => 0) (runningAt CalibrationState.MUST_CHECK) (ImuMsg.mk 0 1))
    (by decide) (by decide) (by decide) (by decide)
  rw [h]
  simp [setDesiredState, toggleRobotOperation_snd, getMean, dataCallback, calculateMean, runningAt,
    running, constructed]

/-- C6, amended: the READY tick that takes `MUST_CHECK` to `CHECKING` empties both sample
buffers and leaves `getMean()` and `getStdDev()` at the values computed by the last
`dataCallback`, the statistics of the samples that were in the buffer before the clear. -/
theorem C6_statistics_after_clear (calculateStdDev : List ℚ → ℚ) (e : Env) (s : ImuManager)
    (input : ImuMsg)
    (hhw : checkHardwareConnection (dataCallback calculateStdDev s input) = true)
    (hsw : checkSoftwareConnection e (dataCallback calculateStdDev s input) = true)
    (hcur : getCurrentState (dataCallback calculateStdDev s input) = CalibrationState.MUST_CHECK)
    (hgate : canCheckCalibration (dataCallback calculateStdDev s input) = true) :
    (readyState e (dataCallback calculateStdDev s input)).data_buffer_ = [] ∧
    (readyState e (dataCallback calculateStdDev s input)).z_angular_velocity_buffer_ = [] ∧
    getMean (readyState e (dataCallback calculateStdDev s input))
      = calculateMean (s.z_angular_velocity_buffer_ ++ [input.angular_velocity_z]) ∧
    getStdDev (readyState e (dataCallback calculateStdDev s input))
      = calculateStdDev (s.z_angular_velocity_buffer_ ++ [input.angular_velocity_z]) ∧
    getMean (readyState e (dataCallback calculateStdDev s input))
      = getMean (dataCallback calculateStdDev s input) ∧
    getStdDev (readyState e (dataCallback calculateStdDev s input))
      = getStdDev (dataCallback calculateStdDev s input) := by
  rw [readyState_must_check_open e _ hhw hsw hcur hgate]
  have hstat := dataCallback_statistics calculateStdDev s input
  simp [setDesiredState, toggleRobotOperation_snd, getMean, getStdDev, hstat.1, hstat.2]

/-- C6, witness: the amended statement at the input of the counterexample. -/
theorem C6_statistics_after_clear_witness :
    getMean (readyState (fineEnv 0)
        (dataCallback (fun _ => 0) (runningAt CalibrationState.MUST_CHECK) (ImuMsg.mk 0 1)))
      = calculateMean ((runningAt CalibrationState.MUST_CHECK).z_angular_velocity_buffer_ ++ [1]) :=
  (C6_statistics_after_clear (fun _ => 0) (fineEnv 0) (runningAt CalibrationState.MUST_CHECK)
    (ImuMsg.mk 0 1) (by decide) (by decide) (by decide) (by decide)).2.2.1

/-- C7: `hasEnoughDataToCalibrate` is `true` exactly when the buffer is non-empty and the
stamp of its last sample minus the stamp of its first sample is at least
`period_of_data_gathering_`; it is `false` on the empty buffer and `true` on a single
sample when the period is not positive. -/
theorem C7_hasEnoughDataToCalibrate_iff (s : ImuManager) :
    (hasEnoughDataToCalibrate s = true ↔
      s.data_buffer_ ≠ [] ∧
        ∃ front back, s.data_buffer_.head? = some front ∧ s.data_buffer_.getLast? = some back ∧
          back.stamp - front.stamp ≥ s.period_of_data_gathering_) ∧
    (s.data_buffer_ = [] → hasEnoughDataToCalibrate s = false) ∧
    (∀ m, s.data_buffer_ = [m] → s.period_of_data_gathering_ ≤ 0 →
      hasEnoughDataToCalibrate s = true) := by
  refine ⟨?_, ?_, ?_⟩
  · cases hb : s.data_buffer_ with
    | nil => simp [hasEnoughDataToCalibrate, hb]
    | cons x xs =>
      obtain ⟨y, hy⟩ : ∃ y, (x :: xs).getLast? = some y :=
        ⟨(x :: xs).getLast (by simp), List.getLast?_eq_getLast _ _⟩
      simp [hasEnoughDataToCalibrate, hb, hy]
  · intro hb
    simp [hasEnoughDataToCalibrate, hb]
  · intro m hb hd
    simp [hasEnoughDataToCalibrate, hb, hd]

/-- C7, witness: two samples five seconds apart with a five-second period, the empty
buffer, and a single sample with period zero. -/
theorem C7_hasEnoughDataToCalibrate_iff_witness :
    hasEnoughDataToCalibrate (checkingWith 0 0) = true ∧
    hasEnoughDataToCalibrate constructed = false ∧
    hasEnoughDataToCalibrate
      { constructed with data_buffer_ := [ImuMsg.mk 7 0], period_of_data_gathering_ := 0 } = true :=
  ⟨(C7_hasEnoughDataToCalibrate_iff (checkingWith 0 0)).1.2
      ⟨by decide, ImuMsg.mk 0 0, ImuMsg.mk 5000000000 0, rfl, rfl, by decide⟩,
    (C7_hasEnoughDataToCalibrate_iff constructed).2.1 rfl,
    (C7_hasEnoughDataToCalibrate_iff
      { constructed with data_buffer_ := [ImuMsg.mk 7 0], period_of_data_gathering_ := 0 }).2.2
      (ImuMsg.mk 7 0) rfl (by decide)⟩

/-! ## C8, C9: the verdict in `CHECKING` -/

/-- C8: a READY tick in `CHECKING` with enough data and `abs(mean) <= max_mean_error`,
`abs(stdDev) <= max_std_dev` stages `CALIBRATED`, stamps `time_of_last_calibration_`
with now and `temperature_at_last_calibration_` with the current temperature, and issues
exactly one motion-control call, `toggleRobotOperation(true)`. -/
theorem C8_checking_calibrated (e : Env) (s : ImuManager)
    (hhw : checkHardwareConnection s = true)
    (hsw : checkSoftwareConnection e s = true)
    (hcur : getCurrentState s = CalibrationState.CHECKING)
    (hdata : hasEnoughDataToCalibrate s = true)
    (hmean : abs s.data_mean_ ≤ s.max_allowed_mean_error_)
    (hstd : abs s.data_std_dev_ ≤ s.max_allowed_std_deviation_) :
    (readyState e s).calibration_state_.desired = CalibrationState.CALIBRATED ∧
    (readyState e s).time_of_last_calibration_ = e.now ∧
    (readyState e s).temperature_at_last_calibration_ = s.current_temperature_ ∧
    (readyState e s).trace = s.trace ++ [Event.robot_toggle_call true] := by
  have hrun := sw_running_of_checkSoftwareConnection e s hsw
  simp only [getCurrentState] at hcur
  have hm : ¬ s.max_allowed_mean_error_ < abs s.data_mean_ := not_lt.mpr hmean
  have hd : ¬ s.max_allowed_std_deviation_ < abs s.data_std_dev_ := not_lt.mpr hstd
  simp [readyState, hhw, hsw, hcur, getCurrentState, hdata, mustRunCalibration, isCalibratedImpl,
    hrun, hm, hd, setDesiredState, toggleRobotOperation_snd]

/-- C8, witness: mean `0.0001`, standard deviation `0.0002`, both thresholds `0.01`. -/
theorem C8_checking_calibrated_witness :
    (readyState (fineEnv 7) (checkingWith (1 / 10000) (2 / 10000))).calibration_state_.desired
      = CalibrationState.CALIBRATED ∧
    (readyState (fineEnv 7) (checkingWith (1 / 10000) (2 / 10000))).time_of_last_calibration_ = 7 ∧
    (readyState (fineEnv 7) (checkingWith (1 / 10000) (2 / 10000))).temperature_at_last_calibration_
      = 25 ∧
    (readyState (fineEnv 7) (checkingWith (1 / 10000) (2 / 10000))).trace
      = [Event.robot_toggle_call true] :=
  C8_checking_calibrated (fineEnv 7) (checkingWith (1 / 10000) (2 / 10000))
    (by decide) (by decide) (by decide) (by decide)
    (by simp [checkingWith, abs_of_pos]; norm_num)
    (by simp [checkingWith, abs_of_pos]; norm_num)

/-- C9: a READY tick in `CHECKING` with enough data and `abs(mean) > max_mean_error`
only stages `MUST_CALIBRATE`: no call leaves the class and the last-calibration stamps
are unchanged, whatever the standard deviation is. -/
theorem C9_checking_not_calibrated (e : Env) (s : ImuManager)
    (hhw : checkHardwareConnection s = true)
    (hsw : checkSoftwareConnection e s = true)
    (hcur : getCurrentState s = CalibrationState.CHECKING)
    (hdata : hasEnoughDataToCalibrate s = true)
    (hmean : abs s.data_mean_ > s.max_allowed_mean_error_) :
    readyState e s = setDesiredState s CalibrationState.MUST_CALIBRATE ∧
    (readyState e s).calibration_state_.desired = CalibrationState.MUST_CALIBRATE ∧
    (readyState e s).trace = s.trace ∧
    (readyState e s).time_of_last_calibration_ = s.time_of_last_calibration_ ∧
    (readyState e s).temperature_at_last_calibration_ = s.temperature_at_last_calibration_ := by
  have hrun := sw_running_of_checkSoftwareConnection e s hsw
  simp only [getCurrentState] at hcur
  have hm : s.max_allowed_mean_error_ < abs s.data_mean_ := hmean
  have h : readyState e s = setDesiredState s CalibrationState.MUST_CALIBRATE := by
    simp [readyState, hhw, hsw, hcur, getCurrentState, hdata, mustRunCalibration,
      isCalibratedImpl, hrun, hm]
  rw [h]
  simp [setDesiredState]

/-- C9, witness: mean `0.05` against a threshold of `0.01`. -/
theorem C9_checking_not_calibrated_witness :
    (readyState (fineEnv 7) (checkingWith (5 / 100) 0)).calibration_state_.desired
      = CalibrationState.MUST_CALIBRATE ∧
    (readyState (fineEnv 7) (checkingWith (5 / 100) 0)).trace = [] :=
  ⟨(C9_checking_not_calibrated (fineEnv 7) (checkingWith (5 / 100) 0)
      (by decide) (by decide) (by decide) (by decide)
      (by simp [checkingWith, abs_of_pos]; norm_num)).2.1,
    (C9_checking_not_calibrated (fineEnv 7) (checkingWith (5 / 100) 0)
      (by decide) (by decide) (by decide) (by decide)
      (by simp [checkingWith, abs_of_pos]; norm_num)).2.2.1⟩

/-! ## C10: `MUST_CALIBRATE` when motion cannot be disabled -/

/-- C10: a READY tick in `MUST_CALIBRATE` with the gate open in which the motion-disable
call fails (service not reached, or `ret` false) stages `NOT_CALIBRATED`; the only call
leaving the class is that motion-control call, so the calibration service is not called
and no lifecycle switch is requested; `start_of_calibration_` and the lifecycle state
are unchanged. -/
theorem C10_must_calibrate_toggle_fails (e : Env) (s : ImuManager)
    (hhw : checkHardwareConnection s = true)
    (hsw : checkSoftwareConnection e s = true)
    (hcur : getCurrentState s = CalibrationState.MUST_CALIBRATE)
    (hgate : canRunCalibration s = true)
    (hfail : e.robot_toggle_result = false ∨ e.robot_toggle_ret = false) :
    (toggleRobotOperation e s false).1 = false ∧
    (readyState e s).calibration_state_.desired = CalibrationState.NOT_CALIBRATED ∧
    (readyState e s).trace = s.trace ++ [Event.robot_toggle_call false] ∧
    (readyState e s).start_of_calibration_ = s.start_of_calibration_ ∧
    (readyState e s).state = s.state := by
  simp only [getCurrentState] at hcur
  have htog : (toggleRobotOperation e s false).1 = false := by
    unfold toggleRobotOperation
    rcases hfail with h | h
    · simp [h]
    · cases hr : e.robot_toggle_result <;> simp [h]
  refine ⟨htog, ?_⟩
  simp [readyState, hhw, hsw, hcur, getCurrentState, hgate, htog, setDesiredState,
    toggleRobotOperation_snd]

/-- C10, witness: the motion-control service cannot be contacted. -/
theorem C10_must_calibrate_toggle_fails_witness :
    (readyState (noToggleEnv 3) (runningAt CalibrationState.MUST_CALIBRATE)).calibration_state_.desired
      = CalibrationState.NOT_CALIBRATED ∧
    (readyState (noToggleEnv 3) (runningAt CalibrationState.MUST_CALIBRATE)).trace
      = [Event.robot_toggle_call false] ∧
    (readyState (noToggleEnv 3) (runningAt CalibrationState.MUST_CALIBRATE)).state
      = LifecycleState.READY_STATE :=
  ⟨(C10_must_calibrate_toggle_fails (noToggleEnv 3) (runningAt CalibrationState.MUST_CALIBRATE)
      (by decide) (by decide) (by decide) (by decide) (Or.inl rfl)).2.1,
    (C10_must_calibrate_toggle_fails (noToggleEnv 3) (runningAt CalibrationState.MUST_CALIBRATE)
      (by decide) (by decide) (by decide) (by decide) (Or.inl rfl)).2.2.1,
    (C10_must_calibrate_toggle_fails (noToggleEnv 3) (runningAt CalibrationState.MUST_CALIBRATE)
      (by decide) (by decide) (by decide) (by decide) (Or.inl rfl)).2.2.2.2⟩

/-! ## C11: `MUST_CALIBRATE` when motion is disabled -/

/-- The motion-control call succeeds exactly when the service is reached and answers
`ret = true` (lines 352-366). -/
theorem toggleRobotOperation_fst_of_ok (e : Env) (s : ImuManager) (toggle : Bool)
    (hres : e.robot_toggle_result = true) (hret : e.robot_toggle_ret = true) :
    (toggleRobotOperation e s toggle).1 = true := by
  simp [toggleRobotOperation, hres, hret]

/-- C11: a READY tick in `MUST_CALIBRATE` with the gate open and motion disabled.  If the
calibration service is not reached or answers `success = false`, the tick stages
`NOT_CALIBRATED`, switches the lifecycle to `FAILURE` and leaves `start_of_calibration_`
as it was; if the service answers `success = true`, the tick stages `CALIBRATING` and
sets `start_of_calibration_` to now, without a lifecycle switch. -/
theorem C11_must_calibrate_trigger (e : Env) (s : ImuManager)
    (hhw : checkHardwareConnection s = true)
    (hsw : checkSoftwareConnection e s = true)
    (hcur : getCurrentState s = CalibrationState.MUST_CALIBRATE)
    (hgate : canRunCalibration s = true)
    (hres : e.robot_toggle_result = true) (hret : e.robot_toggle_ret = true) :
    (e.calibrate_result = false ∨ e.calibrate_success = false →
      (readyState e s).calibration_state_.desired = CalibrationState.NOT_CALIBRATED ∧
      (readyState e s).state = LifecycleState.FAILURE_STATE ∧
      (readyState e s).start_of_calibration_ = s.start_of_calibration_ ∧
      (readyState e s).trace = s.trace ++ [Event.robot_toggle_call false,
        Event.calibrate_gyros_call, Event.switchToState LifecycleState.FAILURE_STATE]) ∧
    (e.calibrate_result = true ∧ e.calibrate_success = true →
      (readyState e s).calibration_state_.desired = CalibrationState.CALIBRATING ∧
      (readyState e s).start_of_calibration_ = e.now ∧
      (readyState e s).state = s.state ∧
      (readyState e s).trace = s.trace ++ [Event.robot_toggle_call false,
        Event.calibrate_gyros_call]) := by
  simp only [getCurrentState] at hcur
  have htog := toggleRobotOperation_fst_of_ok e s false hres hret
  refine ⟨fun hfail => ?_, fun hok => ?_⟩
  · have hrun : ∀ s1 : ImuManager, (runCalibration e s1).1 = false ∧
        (runCalibration e s1).2 = { s1 with trace := s1.trace ++ [Event.calibrate_gyros_call] } := by
      intro s1
      rcases hfail with h | h
      · simp [runCalibration, runCalibrationImpl, h]
      · cases hr : e.calibrate_result <;> simp [runCalibration, runCalibrationImpl, h]
    simp [readyState, hhw, hsw, hcur, getCurrentState, hgate, htog, setDesiredState,
      toggleRobotOperation_snd, hrun, switchToState]
  · simp [readyState, hhw, hsw, hcur, getCurrentState, hgate, htog, setDesiredState,
      toggleRobotOperation_snd, runCalibration, runCalibrationImpl, hok.1, hok.2]

/-- C11, witness: the calibration service is not reached in one tick and answers in the
other. -/
theorem C11_must_calibrate_trigger_witness :
    ((readyState (noCalibrateEnv 3) (runningAt CalibrationState.MUST_CALIBRATE)).calibration_state_.desired
        = CalibrationState.NOT_CALIBRATED ∧
      (readyState (noCalibrateEnv 3) (runningAt CalibrationState.MUST_CALIBRATE)).state
        = LifecycleState.FAILURE_STATE) ∧
    ((readyState (fineEnv 3) (runningAt CalibrationState.MUST_CALIBRATE)).calibration_state_.desired
        = CalibrationState.CALIBRATING ∧
      (readyState (fineEnv 3) (runningAt CalibrationState.MUST_CALIBRATE)).start_of_calibration_ = 3) :=
  ⟨⟨((C11_must_calibrate_trigger (noCalibrateEnv 3) (runningAt CalibrationState.MUST_CALIBRATE)
        (by decide) (by decide) (by decide) (by decide) rfl rfl).1 (Or.inl rfl)).1,
      ((C11_must_calibrate_trigger (noCalibrateEnv 3) (runningAt CalibrationState.MUST_CALIBRATE)
        (by decide) (by decide) (by decide) (by decide) rfl rfl).1 (Or.inl rfl)).2.1⟩,
    ⟨((C11_must_calibrate_trigger (fineEnv 3) (runningAt CalibrationState.MUST_CALIBRATE)
        (by decide) (by decide) (by decide) (by decide) rfl rfl).2 ⟨rfl, rfl⟩).1,
      ((C11_must_calibrate_trigger (fineEnv 3) (runningAt CalibrationState.MUST_CALIBRATE)
        (by decide) (by decide) (by decide) (by decide) rfl rfl).2 ⟨rfl, rfl⟩).2.1⟩⟩

/-! ## C12: `CALIBRATING` -/

/-- C12: a READY tick in `CALIBRATING`.  When now minus `start_of_calibration_` has reached
`duration_of_calibration_` the tick only stages `MUST_CHECK`; before that the tick
changes nothing.  In both cases no call leaves the class. -/
theorem C12_calibrating (e : Env) (s : ImuManager)
    (hhw : checkHardwareConnection s = true)
    (hsw : checkSoftwareConnection e s = true)
    (hcur : getCurrentState s = CalibrationState.CALIBRATING) :
    (e.now - s.start_of_calibration_ ≥ s.duration_of_calibration_ →
      readyState e s = setDesiredState s CalibrationState.MUST_CHECK ∧
      (readyState e s).calibration_state_.desired = CalibrationState.MUST_CHECK) ∧
    (e.now - s.start_of_calibration_ < s.duration_of_calibration_ →
      readyState e s = s) ∧
    (readyState e s).trace = s.trace := by
  simp only [getCurrentState] at hcur
  by_cases h : e.now - s.start_of_calibration_ < s.duration_of_calibration_
  · have hs : readyState e s = s := by
      simp [readyState, hhw, hsw, hcur, getCurrentState, isRunningCalibration, h]
    refine ⟨fun hge => absurd h (not_lt.mpr hge), fun _ => hs, by rw [hs]⟩
  · have hs : readyState e s = setDesiredState s CalibrationState.MUST_CHECK := by
      simp [readyState, hhw, hsw, hcur, getCurrentState, isRunningCalibration, h]
    refine ⟨fun _ => ⟨hs, by rw [hs]; rfl⟩, fun hlt => absurd hlt h, by rw [hs]; rfl⟩

/-- C12, witness: the default duration of forty seconds, at forty seconds and at one
second after the start. -/
theorem C12_calibrating_witness :
    (readyState (fineEnv 40000000000) (runningAt CalibrationState.CALIBRATING)).calibration_state_.desired
      = CalibrationState.MUST_CHECK ∧
    readyState (fineEnv 1000000000) (runningAt CalibrationState.CALIBRATING)
      = runningAt CalibrationState.CALIBRATING :=
  ⟨((C12_calibrating (fineEnv 40000000000) (runningAt CalibrationState.CALIBRATING)
      (by decide) (by decide) (by decide)).1 (by decide)).2,
    (C12_calibrating (fineEnv 1000000000) (runningAt CalibrationState.CALIBRATING)
      (by decide) (by decide) (by decide)).2.1 (by decide)⟩

/-! ## C13: the operator-demand request -/

/-- C13: `triggerCalibrationCallback` returns `true` with `response.success = true` and
never changes the current or desired label.  In `UNKNOWN`, `NOT_CALIBRATED` and
`CALIBRATED` it sets `calibration_demanded_` and nothing else, and a second request
leaves the state it produced; in `CHECKING`, `MUST_CHECK`, `MUST_CALIBRATE` and
`CALIBRATING` it changes nothing and answers with the "had no effect" message. -/
theorem C13_triggerCalibrationCallback (s : ImuManager) :
    (triggerCalibrationCallback s).1 = true ∧
    (triggerCalibrationCallback s).2.1.success = true ∧
    (triggerCalibrationCallback s).2.2.calibration_state_ = s.calibration_state_ ∧
    (getCurrentState s = CalibrationState.UNKNOWN ∨
        getCurrentState s = CalibrationState.NOT_CALIBRATED ∨
        getCurrentState s = CalibrationState.CALIBRATED →
      (triggerCalibrationCallback s).2.2 = { s with calibration_demanded_ := true } ∧
      (triggerCalibrationCallback s).2.2.calibration_demanded_ = true ∧
      (triggerCalibrationCallback (triggerCalibrationCallback s).2.2).2.2
        = (triggerCalibrationCallback s).2.2) ∧
    (getCurrentState s = CalibrationState.CHECKING ∨
        getCurrentState s = CalibrationState.MUST_CHECK ∨
        getCurrentState s = CalibrationState.MUST_CALIBRATE ∨
        getCurrentState s = CalibrationState.CALIBRATING →
      (triggerCalibrationCallback s).2.2 = s ∧
      (triggerCalibrationCallback s).2.1.message
        = "Calibration was running, so this call had no effect") := by
  simp only [getCurrentState]
  cases hc : s.calibration_state_.current <;>
    simp [triggerCalibrationCallback, getCurrentState, hc]

/-- C13, witness: a request in `CALIBRATED` and a request in `CHECKING`. -/
theorem C13_triggerCalibrationCallback_witness :
    (triggerCalibrationCallback (runningAt CalibrationState.CALIBRATED)).2.2.calibration_demanded_
      = true ∧
    (triggerCalibrationCallback (runningAt CalibrationState.CHECKING)).2.2
      = runningAt CalibrationState.CHECKING :=
  ⟨((C13_triggerCalibrationCallback (runningAt CalibrationState.CALIBRATED)).2.2.2.1
      (Or.inr (Or.inr rfl))).2.1,
    ((C13_triggerCalibrationCallback (runningAt CalibrationState.CHECKING)).2.2.2.2
      (Or.inl rfl)).1⟩

/-! ## C14: the `EMERGENCY` handler -/

/-- After `stopSoftware` software is not running, and `hw_running_` is untouched
(lines 472-493 with `stopSoftwareImpl` returning `true`). -/
theorem stopSoftware_flags (s : ImuManager) :
    (stopSoftware s).2.sw_running_ = false ∧ (stopSoftware s).2.hw_running_ = s.hw_running_ := by
  cases hs : s.sw_running_ <;> simp [stopSoftware, stopSoftwareImpl, hs]

/-- C14, counterexample: in `EMERGENCY` with hardware not running, `emergencyState`
requests a lifecycle transition, to `FAILURE`. -/
theorem C14_emergency_without_hardware_fails :
    checkHardwareConnection emergencyWithoutHardware = false ∧
    emergencyWithoutHardware.state = LifecycleState.EMERGENCY_STATE ∧
    (emergencyState emergencyWithoutHardware).state = LifecycleState.FAILURE_STATE ∧
    (emergencyState emergencyWithoutHardware).trace
      = [Event.stopSoftwareImpl, Event.switchToState LifecycleState.FAILURE_STATE] := by
  decide

/-- C14, amended: `emergencyState` stops software (`sw_running_` is `false` afterwards) and
then switches the lifecycle to `INIT` when hardware is reachable and to `FAILURE` when it
is not. -/
theorem C14_emergencyState (s : ImuManager) :
    (emergencyState s).sw_running_ = false ∧
    (emergencyState s).hw_running_ = s.hw_running_ ∧
    (checkHardwareConnection s = true →
      (emergencyState s).state = LifecycleState.INIT_STATE ∧
      (emergencyState s).trace
        = (stopSoftware s).2.trace ++ [Event.switchToState LifecycleState.INIT_STATE]) ∧
    (checkHardwareConnection s = false →
      (emergencyState s).state = LifecycleState.FAILURE_STATE ∧
      (emergencyState s).trace
        = (stopSoftware s).2.trace ++ [Event.switchToState LifecycleState.FAILURE_STATE]) := by
  have hf := stopSoftware_flags s
  cases hh : s.hw_running_ <;>
    simp [emergencyState, checkHardwareConnection, checkHardwareConnectionImpl, switchToState,
      hf.1, hf.2, hh]

/-- C14, witness: the handler with hardware running and with hardware not running. -/
theorem C14_emergencyState_witness :
    (emergencyState running).state = LifecycleState.INIT_STATE ∧
    (emergencyState emergencyWithoutHardware).state = LifecycleState.FAILURE_STATE :=
  ⟨((C14_emergencyState running).2.2.1 (by decide)).1,
    ((C14_emergencyState emergencyWithoutHardware).2.2.2 (by decide)).1⟩

/-! ## C15, C16: `CALIBRATED` -/

/-- The `CALIBRATED` branch of a READY tick (lines 148-178). -/
theorem readyState_calibrated (e : Env) (s : ImuManager)
    (hhw : checkHardwareConnection s = true)
    (hsw : checkSoftwareConnection e s = true)
    (hcur : getCurrentState s = CalibrationState.CALIBRATED) :
    readyState e s =
      if s.calibration_only_under_demand_ = false ∧
          abs (s.current_temperature_ - s.temperature_at_last_calibration_) > 1 then
        setDesiredState { s with temperature_variation_for_calibration_ := 1 }
          CalibrationState.MUST_CHECK
      else if s.calibration_only_under_demand_ = false ∧
          e.now - s.time_of_last_calibration_ > s.period_between_checkings_ then
        setDesiredState { s with temperature_variation_for_calibration_ := 1 }
          CalibrationState.MUST_CHECK
      else if s.calibration_demanded_ = true then
        setDesiredState
          { s with temperature_variation_for_calibration_ := 1, calibration_demanded_ := false }
          CalibrationState.MUST_CHECK
      else { s with temperature_variation_for_calibration_ := 1 } := by
  simp only [getCurrentState] at hcur
  simp [readyState, hhw, hsw, hcur, getCurrentState]

/-- Every READY tick in `CALIBRATED` writes `1` into
`temperature_variation_for_calibration_` (line 150). -/
theorem readyState_calibrated_trigger (e : Env) (s : ImuManager)
    (hhw : checkHardwareConnection s = true)
    (hsw : checkSoftwareConnection e s = true)
    (hcur : getCurrentState s = CalibrationState.CALIBRATED) :
    (readyState e s).temperature_variation_for_calibration_ = 1 := by
  rw [readyState_calibrated e s hhw hsw hcur]
  split_ifs <;> rfl

/-- C15, evaluation of the code: the configured trigger is `0.5`, demand-only mode is
disabled and the temperature moved by `0.75`, more than the trigger; the READY tick in
`CALIBRATED` leaves the desired label at `CALIBRATED` and the configured trigger is `1`
afterwards. -/
theorem C15_configured_trigger_overwritten :
    (calibratedWith (1 / 2) (83 / 4) 20).calibration_only_under_demand_ = false ∧
    abs ((calibratedWith (1 / 2) (83 / 4) 20).current_temperature_
        - (calibratedWith (1 / 2) (83 / 4) 20).temperature_at_last_calibration_)
      > (calibratedWith (1 / 2) (83 / 4) 20).temperature_variation_for_calibration_ ∧
    (readyState (fineEnv 0) (calibratedWith (1 / 2) (83 / 4) 20)).calibration_state_.desired
      = CalibrationState.CALIBRATED ∧
    (readyState (fineEnv 0) (calibratedWith (1 / 2) (83 / 4) 20)).temperature_variation_for_calibration_
      = 1 := by
  refine ⟨rfl, ?_, ?_, ?_⟩
  · simp only [calibratedWith]
    norm_num [abs_of_pos]
  · have habs : ¬ (1 : ℚ) < |83 / 4 - 20| := by norm_num [abs_of_pos]
    simp [readyState, checkHardwareConnection, checkHardwareConnectionImpl,
      checkSoftwareConnection, checkSoftwareConnectionImpl, getCurrentState, calibratedWith,
      runningAt, running, constructed, fineEnv, habs]
  · exact readyState_calibrated_trigger _ _ (by decide) (by decide) (by decide)

/-- C16, counterexample: with demand-only mode disabled, a demand pending and the
temperature two degrees off, the READY tick in `CALIBRATED` stages `MUST_CHECK` and
leaves `calibration_demanded_` at `true`. -/
theorem C16_demand_survives_temperature_trigger :
    getCurrentState demandedAndWarm = CalibrationState.CALIBRATED ∧
    demandedAndWarm.calibration_demanded_ = true ∧
    (readyState (fineEnv 0) demandedAndWarm).calibration_state_.desired
      = CalibrationState.MUST_CHECK ∧
    (readyState (fineEnv 0) demandedAndWarm).calibration_demanded_ = true := by
  have habs : (1 : ℚ) < |2 - 0| := by norm_num
  refine ⟨rfl, rfl, ?_, ?_⟩ <;>
    simp [readyState, checkHardwareConnection, checkHardwareConnectionImpl,
      checkSoftwareConnection, checkSoftwareConnectionImpl, getCurrentState, demandedAndWarm,
      calibratedWith, runningAt, running, constructed, fineEnv, setDesiredState]

/-- C16, amended: a READY tick in `CALIBRATED` with a demand pending stages `MUST_CHECK`
whatever the demand-only flag, temperatures and stamps are; `calibration_demanded_` is
`false` afterwards when demand-only mode is enabled or when neither the temperature
test nor the period test of the tick fires. -/
theorem C16_calibrated_demand (e : Env) (s : ImuManager)
    (hhw : checkHardwareConnection s = true)
    (hsw : checkSoftwareConnection e s = true)
    (hcur : getCurrentState s = CalibrationState.CALIBRATED)
    (hdemand : s.calibration_demanded_ = true) :
    (readyState e s).calibration_state_.desired = CalibrationState.MUST_CHECK ∧
    (s.calibration_only_under_demand_ = true ∨
        (¬ abs (s.current_temperature_ - s.temperature_at_last_calibration_) > 1 ∧
          ¬ e.now - s.time_of_last_calibration_ > s.period_between_checkings_) →
      (readyState e s).calibration_demanded_ = false) := by
  rw [readyState_calibrated e s hhw hsw hcur]
  constructor
  · simp only [hdemand, if_true]
    split_ifs <;> rfl
  · intro h
    rcases h with h | ⟨h1, h2⟩
    · simp [h, hdemand, setDesiredState]
    · simp [h1, h2, hdemand, setDesiredState]

/-- C16, witness: a demand-only component in `CALIBRATED` with a demand pending. -/
theorem C16_calibrated_demand_witness :
    (readyState (fineEnv 0)
        { demandedAndWarm with calibration_only_under_demand_ := true }).calibration_state_.desired
      = CalibrationState.MUST_CHECK ∧
    (readyState (fineEnv 0)
        { demandedAndWarm with calibration_only_under_demand_ := true }).calibration_demanded_
      = false :=
  ⟨(C16_calibrated_demand (fineEnv 0)
      { demandedAndWarm with calibration_only_under_demand_ := true }
      (by decide) (by decide) (by decide) rfl).1,
    (C16_calibrated_demand (fineEnv 0)
      { demandedAndWarm with calibration_only_under_demand_ := true }
      (by decide) (by decide) (by decide) rfl).2 (Or.inl rfl)⟩

/-! ## C17: `MUST_CHECK` -/

/-- C17: a READY tick in `MUST_CHECK`.  Checking is permitted unless demand-only mode is
on and no demand is pending.  When it is permitted the tick stages `CHECKING`, empties
`data_buffer_` and `z_angular_velocity_buffer_`, and makes exactly one outside call,
`toggleRobotOperation(false)`; when it is not permitted the tick changes nothing. -/
theorem C17_must_check (e : Env) (s : ImuManager)
    (hhw : checkHardwareConnection s = true)
    (hsw : checkSoftwareConnection e s = true)
    (hcur : getCurrentState s = CalibrationState.MUST_CHECK) :
    (canCheckCalibration s = true ↔
      ¬ (s.calibration_only_under_demand_ = true ∧ s.calibration_demanded_ = false)) ∧
    (canCheckCalibration s = true →
      (readyState e s).calibration_state_.desired = CalibrationState.CHECKING ∧
      (readyState e s).data_buffer_ = [] ∧
      (readyState e s).z_angular_velocity_buffer_ = [] ∧
      (readyState e s).trace = s.trace ++ [Event.robot_toggle_call false]) ∧
    (canCheckCalibration s = false → readyState e s = s) := by
  refine ⟨?_, fun hgate => ?_, fun hgate => ?_⟩
  · cases hm : s.calibration_only_under_demand_ <;> cases hd : s.calibration_demanded_ <;>
      simp [canCheckCalibration, hm, hd]
  · rw [readyState_must_check_open e s hhw hsw hcur hgate]
    simp [setDesiredState, toggleRobotOperation_snd]
  · simp only [getCurrentState] at hcur
    simp [readyState, hhw, hsw, hcur, getCurrentState, hgate]

/-- C17, witness: an autonomous component (gate open) and a demand-only component with
no demand (gate closed), both in `MUST_CHECK`. -/
theorem C17_must_check_witness :
    (readyState (fineEnv 0) (runningAt CalibrationState.MUST_CHECK)).calibration_state_.desired
      = CalibrationState.CHECKING ∧
    readyState (fineEnv 0)
        { runningAt CalibrationState.MUST_CHECK with calibration_only_under_demand_ := true }
      = { runningAt CalibrationState.MUST_CHECK with calibration_only_under_demand_ := true } :=
  ⟨((C17_must_check (fineEnv 0) (runningAt CalibrationState.MUST_CHECK)
      (by decide) (by decide) (by decide)).2.1 (by decide)).1,
    (C17_must_check (fineEnv 0)
      { runningAt CalibrationState.MUST_CHECK with calibration_only_under_demand_ := true }
      (by decide) (by decide) (by decide)).2.2 (by decide)⟩

/-! ## C18: the health checks of `READY` -/

/-- C18: when hardware is not reachable `readyState` is `switchToState(FAILURE)` and
nothing else; when hardware is reachable and software is not, it is
`switchToState(EMERGENCY)` and nothing else.  In both cases the calibration state
machine, the demand flag, the last-calibration stamp and temperature, the calibration
start and both buffers are unchanged, and the only call logged is the lifecycle
switch. -/
theorem C18_health_checks (e : Env) (s : ImuManager) :
    (checkHardwareConnection s = false →
      readyState e s = switchToState s LifecycleState.FAILURE_STATE ∧
      (readyState e s).state = LifecycleState.FAILURE_STATE ∧
      (readyState e s).trace = s.trace ++ [Event.switchToState LifecycleState.FAILURE_STATE]) ∧
    (checkHardwareConnection s = true → checkSoftwareConnection e s = false →
      readyState e s = switchToState s LifecycleState.EMERGENCY_STATE ∧
      (readyState e s).state = LifecycleState.EMERGENCY_STATE ∧
      (readyState e s).trace
        = s.trace ++ [Event.switchToState LifecycleState.EMERGENCY_STATE]) ∧
    (checkHardwareConnection s = false ∨ checkSoftwareConnection e s = false →
      (readyState e s).calibration_state_ = s.calibration_state_ ∧
      (readyState e s).calibration_demanded_ = s.calibration_demanded_ ∧
      (readyState e s).time_of_last_calibration_ = s.time_of_last_calibration_ ∧
      (readyState e s).temperature_at_last_calibration_ = s.temperature_at_last_calibration_ ∧
      (readyState e s).start_of_calibration_ = s.start_of_calibration_ ∧
      (readyState e s).data_buffer_ = s.data_buffer_ ∧
      (readyState e s).z_angular_velocity_buffer_ = s.z_angular_velocity_buffer_ ∧
      Event.robot_toggle_call true ∉ (readyState e s).trace.drop s.trace.length ∧
      Event.robot_toggle_call false ∉ (readyState e s).trace.drop s.trace.length ∧
      Event.calibrate_gyros_call ∉ (readyState e s).trace.drop s.trace.length) := by
  have hF : checkHardwareConnection s = false →
      readyState e s = switchToState s LifecycleState.FAILURE_STATE := by
    intro h
    simp [readyState, h]
  have hE : checkHardwareConnection s = true → checkSoftwareConnection e s = false →
      readyState e s = switchToState s LifecycleState.EMERGENCY_STATE := by
    intro h1 h2
    simp [readyState, h1, h2]
  refine ⟨fun h => ?_, fun h1 h2 => ?_, fun h => ?_⟩
  · rw [hF h]
    simp [switchToState]
  · rw [hE h1 h2]
    simp [switchToState]
  · cases hh : checkHardwareConnection s with
    | false =>
      rw [hF hh]
      simp [switchToState]
    | true =>
      have hs : checkSoftwareConnection e s = false := by
        rcases h with h | h
        · rw [hh] at h
          cases h
        · exact h
      rw [hE hh hs]
      simp [switchToState]

/-- C18, witness: the constructed component (hardware not running) and a component whose
software is not running. -/
theorem C18_health_checks_witness :
    (readyState (fineEnv 0) constructed).state = LifecycleState.FAILURE_STATE ∧
    (readyState (fineEnv 0) hardwareOnly).state = LifecycleState.EMERGENCY_STATE ∧
    (readyState (fineEnv 0) hardwareOnly).calibration_state_ = hardwareOnly.calibration_state_ :=
  ⟨((C18_health_checks (fineEnv 0) constructed).1 (by decide)).2.1,
    ((C18_health_checks (fineEnv 0) hardwareOnly).2.1 (by decide) (by decide)).2.1,
    ((C18_health_checks (fineEnv 0) hardwareOnly).2.2 (Or.inr (by decide))).1⟩

/-! ## C19: the demand-only component in `MUST_CHECK` -/

/-- A supervisory tick keeps the waiting configuration, whatever the environment and the
health of hardware and software. -/
theorem deadEnd_readyTick (e : Env) (s : ImuManager) (h : deadEnd s) :
    deadEnd (readyTick e s) := by
  obtain ⟨hm, hc, hd, hn⟩ := h
  have hgate : canCheckCalibration s = false := by simp [canCheckCalibration, hm, hn]
  cases hhw : checkHardwareConnection s with
  | false =>
    simp [deadEnd, readyTick, allState, switchToDesiredState, readyState, hhw, switchToState,
      hm, hd, hn]
  | true =>
    cases hsw : checkSoftwareConnection e s with
    | false =>
      simp [deadEnd, readyTick, allState, switchToDesiredState, readyState, hhw, hsw,
        switchToState, hm, hd, hn]
    | true =>
      have hs : readyState e s = s := by
        simp [readyState, hhw, hsw, hc, getCurrentState, hgate]
      simp [deadEnd, readyTick, allState, switchToDesiredState, hs, hm, hd, hn]

/-- An operator request keeps the waiting configuration: in `MUST_CHECK` it has no
effect. -/
theorem deadEnd_demand (s : ImuManager) (h : deadEnd s) :
    deadEnd (triggerCalibrationCallback s).2.2 := by
  obtain ⟨hm, hc, hd, hn⟩ := h
  simp [deadEnd, triggerCalibrationCallback, getCurrentState, hc, hm, hd, hn]

/-- Every sequence of ticks and operator requests keeps the waiting configuration. -/
theorem deadEnd_run (actions : List Action) (s : ImuManager) (h : deadEnd s) :
    deadEnd (run s actions) := by
  induction actions generalizing s with
  | nil => exact h
  | cons a rest ih =>
    cases a with
    | tick e => exact ih (readyTick e s) (deadEnd_readyTick e s h)
    | demand => exact ih _ (deadEnd_demand s h)

/-- C19: in demand-only mode the configuration (current `MUST_CHECK`, desired
`MUST_CHECK`, no demand pending) is kept by every supervisory tick and by every operator
request, hence by every sequence of them: the current label is never `CHECKING` and the
demand flag is never `true` again.  The configuration is reached from current and desired
label `UNKNOWN` with no demand by two supervisory ticks, the first with hardware and
software reachable. -/
theorem C19_demand_only_dead_end :
    (∀ (e : Env) (s : ImuManager), deadEnd s → deadEnd (readyTick e s)) ∧
    (∀ s : ImuManager, deadEnd s → deadEnd (triggerCalibrationCallback s).2.2) ∧
    (∀ (actions : List Action) (s : ImuManager), deadEnd s →
      deadEnd (run s actions) ∧
      getCurrentState (run s actions) ≠ CalibrationState.CHECKING ∧
      (run s actions).calibration_demanded_ = false) ∧
    (∀ (e1 e2 : Env) (s : ImuManager),
      s.calibration_only_under_demand_ = true →
      s.calibration_state_ = StateMachine.mk CalibrationState.UNKNOWN CalibrationState.UNKNOWN →
      s.calibration_demanded_ = false →
      checkHardwareConnection s = true →
      checkSoftwareConnection e1 s = true →
      deadEnd (readyTick e2 (readyTick e1 s))) := by
  refine ⟨deadEnd_readyTick, deadEnd_demand, fun actions s h => ?_, ?_⟩
  · have hr := deadEnd_run actions s h
    refine ⟨hr, ?_, hr.2.2.2⟩
    simp [getCurrentState, hr.2.1]
  · intro e1 e2 s hm hst hn hhw hsw
    apply deadEnd_readyTick
    have hc : s.calibration_state_.current = CalibrationState.UNKNOWN := by rw [hst]
    simp [deadEnd, readyTick, allState, switchToDesiredState, readyState, hhw, hsw, hc,
      getCurrentState, setDesiredState, hm, hn]

/-- C19, witness: the constructed component in demand-only mode with both subsystems
running reaches the configuration in two ticks and is still in it after a request and a
third tick. -/
theorem C19_demand_only_dead_end_witness :
    deadEnd (readyTick (fineEnv 2)
      (readyTick (fineEnv 1) { running with calibration_only_under_demand_ := true })) ∧
    getCurrentState
        (run (readyTick (fineEnv 2)
            (readyTick (fineEnv 1) { running with calibration_only_under_demand_ := true }))
          [Action.demand, Action.tick (fineEnv 3)])
      ≠ CalibrationState.CHECKING :=
  ⟨C19_demand_only_dead_end.2.2.2 (fineEnv 1) (fineEnv 2)
      { running with calibration_only_under_demand_ := true } rfl rfl rfl (by decide) (by decide),
    (C19_demand_only_dead_end.2.2.1 [Action.demand, Action.tick (fineEnv 3)] _
      (C19_demand_only_dead_end.2.2.2 (fineEnv 1) (fineEnv 2)
        { running with calibration_only_under_demand_ := true } rfl rfl rfl
        (by decide) (by decide))).2.1⟩

/-! ## C20: the result of the motion-control call -/

/-- C20: two READY ticks from the same state at the same time, in environments that may
differ in what the motion-control service answers, give the same state, in `MUST_CHECK`
with the gate open (the result stages `CHECKING`) and in `CHECKING` with enough data and
a calibrated verdict (the result stages `CALIBRATED`). -/
theorem C20_toggle_result_ignored (e e' : Env) (s : ImuManager)
    (hnow : e.now = e'.now)
    (hhw : checkHardwareConnection s = true)
    (hsw : checkSoftwareConnection e s = true)
    (hsw' : checkSoftwareConnection e' s = true) :
    (getCurrentState s = CalibrationState.MUST_CHECK → canCheckCalibration s = true →
      readyState e s = readyState e' s ∧
      (readyState e s).calibration_state_.desired = CalibrationState.CHECKING) ∧
    (getCurrentState s = CalibrationState.CHECKING → hasEnoughDataToCalibrate s = true →
        isCalibratedImpl s = true →
      readyState e s = readyState e' s ∧
      (readyState e s).calibration_state_.desired = CalibrationState.CALIBRATED) := by
  refine ⟨fun hcur hgate => ?_, fun hcur hdata hcal => ?_⟩
  · rw [readyState_must_check_open e s hhw hsw hcur hgate,
      readyState_must_check_open e' s hhw hsw' hcur hgate]
    simp [setDesiredState, toggleRobotOperation_snd]
  · have hrun := sw_running_of_checkSoftwareConnection e s hsw
    simp only [getCurrentState] at hcur
    have h1 : ∀ e0 : Env, checkSoftwareConnection e0 s = true →
        readyState e0 s = setDesiredState
          { s with
            time_of_last_calibration_ := e0.now,
            temperature_at_last_calibration_ := s.current_temperature_,
            trace := s.trace ++ [Event.robot_toggle_call true] }
          CalibrationState.CALIBRATED := by
      intro e0 h0
      simp [readyState, hhw, h0, hcur, getCurrentState, hdata, mustRunCalibration, hrun, hcal,
        setDesiredState, toggleRobotOperation_snd]
    rw [h1 e hsw, h1 e' hsw', hnow]
    simp [setDesiredState]

/-- C20, witness: the motion-control service answers in one environment and cannot be
contacted in the other. -/
theorem C20_toggle_result_ignored_witness :
    (toggleRobotOperation (noToggleEnv 7) (runningAt CalibrationState.MUST_CHECK) false).1 = false ∧
    readyState (fineEnv 7) (runningAt CalibrationState.MUST_CHECK)
      = readyState (noToggleEnv 7) (runningAt CalibrationState.MUST_CHECK) ∧
    (readyState (noToggleEnv 7) (checkingWith 0 0)).calibration_state_.desired
      = CalibrationState.CALIBRATED :=
  ⟨by decide,
    ((C20_toggle_result_ignored (fineEnv 7) (noToggleEnv 7) (runningAt CalibrationState.MUST_CHECK)
      rfl (by decide) (by decide) (by decide)).1 (by decide) (by decide)).1,
    ((C20_toggle_result_ignored (noToggleEnv 7) (fineEnv 7) (checkingWith 0 0)
      rfl (by decide) (by decide) (by decide)).2 (by decide) (by decide)
      (by simp [isCalibratedImpl, checkingWith])).2⟩

/-! ## C21: the `FAILURE` handler -/

/-- With hardware running, `initState` starts nothing and switches to `STANDBY`
(lines 393-397 and 112). -/
theorem initState_of_hardware_running (s : ImuManager) (h : s.hw_running_ = true) :
    initState s = switchToState s LifecycleState.STANDBY_STATE := by
  simp [initState, startHardware, h]

/-- C21: for every value of `hw_running_` and `sw_running_`, after `failureState` the
flag `hw_running_` is `true`, `sw_running_` is what it was and the lifecycle state is
`INIT`; `initState` on the result (directly, or after the commit of `allState`) switches
to `STANDBY`, and the only call it logs is that switch. -/
theorem C21_failureState_recovers (s : ImuManager) :
    (failureState s).hw_running_ = true ∧
    (failureState s).sw_running_ = s.sw_running_ ∧
    (failureState s).state = LifecycleState.INIT_STATE ∧
    (initState (failureState s)).state = LifecycleState.STANDBY_STATE ∧
    (initState (allState (failureState s))).state = LifecycleState.STANDBY_STATE ∧
    (initState (failureState s)).trace
      = (failureState s).trace ++ [Event.switchToState LifecycleState.STANDBY_STATE] := by
  have hhw : (failureState s).hw_running_ = true := by
    cases hh : s.hw_running_ <;> cases hs : s.sw_running_ <;>
      simp [failureState, stopHardware, stopHardwareImpl, startHardware, startHardwareImpl,
        checkHardwareConnection, checkHardwareConnectionImpl, switchToState, hh, hs]
  have hsw : (failureState s).sw_running_ = s.sw_running_ := by
    cases hh : s.hw_running_ <;> cases hs : s.sw_running_ <;>
      simp [failureState, stopHardware, stopHardwareImpl, startHardware, startHardwareImpl,
        checkHardwareConnection, checkHardwareConnectionImpl, switchToState, hh, hs]
  have hst : (failureState s).state = LifecycleState.INIT_STATE := by
    cases hh : s.hw_running_ <;> cases hs : s.sw_running_ <;>
      simp [failureState, stopHardware, stopHardwareImpl, startHardware, startHardwareImpl,
        checkHardwareConnection, checkHardwareConnectionImpl, switchToState, hh, hs]
  have hall : (allState (failureState s)).hw_running_ = true := by
    simpa [allState, switchToDesiredState] using hhw
  refine ⟨hhw, hsw, hst, ?_, ?_, ?_⟩
  · rw [initState_of_hardware_running _ hhw]
    rfl
  · rw [initState_of_hardware_running _ hall]
    rfl
  · rw [initState_of_hardware_running _ hhw]
    rfl

end imu_manager
